import Mathlib

/-
Verification development for the bmlt-meeting-import pipeline.

The TypeScript sources (SpreadsheetProcessor.ts, NAWSMapper.ts,
ServiceBodyCreator.ts, MeetingImportService.ts) are shallowly embedded as
executable Lean definitions.  Conventions used throughout:

* JavaScript strings are Lean `String`s; an `undefined`/absent optional string
  field is modelled as `""` (every use site in the sources only ever applies
  truthiness, `trim`, `toUpperCase`, or equality to these fields, for which
  `undefined` and `""` behave identically).
* JavaScript string helpers (`trim`, `toUpperCase`, `split`, `replace`,
  `padStart`, `parseInt`, `parseFloat`) are re-implemented structurally over
  `String.data` so that every definition kernel-reduces.
* JavaScript numbers that only ever hold small integers are `Nat`;
  geographic coordinates (JS doubles used only for parse/compare/store)
  are modelled as exact rationals `Rat`.
* `async` functions become pure functions over an explicit environment that
  fixes the outcome of each remote call; a thrown exception becomes the
  `.error` branch of an `Except`.
* The `AbortSignal` is modelled as a boolean-valued function on the sequence
  of cancellation checkpoints polled by the pipeline.
-/

/-- JavaScript whitespace test used by String.prototype.trim (restricted to the
whitespace characters that can occur in spreadsheet cells). -/
def isWsChar (c : Char) : Bool :=
  c == ' ' || c == '\t' || c == '\n' || c == '\r'

/-- Model of JS `s.trim()`: drop whitespace from both ends. -/
def jsTrim (s : String) : String :=
  ⟨((s.data.dropWhile isWsChar).reverse.dropWhile isWsChar).reverse⟩

/-- Model of JS `s.toUpperCase()` (ASCII, which covers all data the importer
compares case-insensitively). -/
def jsUpper (s : String) : String :=
  ⟨s.data.map Char.toUpper⟩

/-- Model of JS `s.toLowerCase()` (ASCII). -/
def jsLower (s : String) : String :=
  ⟨s.data.map Char.toLower⟩

/-- Maximal leading run of decimal digits of a character list. -/
def leadingDigits (cs : List Char) : List Char :=
  cs.takeWhile Char.isDigit

/-- Numeric value of a list of decimal digit characters. -/
def digitsVal (cs : List Char) : Nat :=
  cs.foldl (fun n c => n * 10 + (c.toNat - 48)) 0

/-- Model of JS `parseInt(s)` for the strings reachable in this code base
(after the regex strip the string consists of digits and colons only):
the value of the maximal leading digit run, `none` for `NaN` when there is
no leading digit. -/
def jsParseInt (s : String) : Option Nat :=
  let ds := leadingDigits s.data
  if ds.isEmpty then none else some (digitsVal ds)

/-- Model of JS `s.replace(/[^0-9:]/g, '')`: keep only digits and colons. -/
def stripTimeChars (s : String) : String :=
  ⟨s.data.filter (fun c => c.isDigit || c == ':')⟩

/-- Model of JS `s.split(c)` for a single-character separator, on char lists. -/
def splitOnCharList (sep : Char) : List Char → List (List Char)
  | [] => [[]]
  | x :: xs =>
    if x == sep then [] :: splitOnCharList sep xs
    else
      match splitOnCharList sep xs with
      | h :: t => (x :: h) :: t
      | [] => [[x]]

/-- Model of JS `s.split(':')`. -/
def splitColon (s : String) : List String :=
  (splitOnCharList ':' s.data).map (fun cs => ⟨cs⟩)

/-- Whether a string contains a given character (JS `s.includes(c)`). -/
def strContains (s : String) (c : Char) : Bool :=
  s.data.contains c

/-- Model of JS `n.toString().padStart(2, '0')` for a natural number. -/
def pad2 (n : Nat) : String :=
  let s := toString n
  if s.length < 2 then "0" ++ s else s

/-- Zero-padded rendering of a possibly-NaN JS number: `NaN.toString()` is
`"NaN"`, which `padStart(2, '0')` leaves unchanged. -/
def padOpt : Option Nat → String
  | none => "NaN"
  | some n => pad2 n

/-- Comma-space join, JS `list.join(', ')`. -/
def joinCommaSpace : List String → String
  | [] => ""
  | [s] => s
  | s :: rest => s ++ ", " ++ joinCommaSpace rest

/-- Result of parsing an optional exponent part of a JS float literal. -/
def parseExpPart (cs : List Char) : Int :=
  match cs with
  | 'e' :: rest | 'E' :: rest =>
    match rest with
    | '+' :: ds => if (leadingDigits ds).isEmpty then 0 else Int.ofNat (digitsVal (leadingDigits ds))
    | '-' :: ds => if (leadingDigits ds).isEmpty then 0 else -Int.ofNat (digitsVal (leadingDigits ds))
    | ds => if (leadingDigits ds).isEmpty then 0 else Int.ofNat (digitsVal (leadingDigits ds))
  | _ => 0

/-- Model of JS `parseFloat(s)` as an exact rational: optional sign, decimal
digits with an optional fraction, and an optional exponent; `none` models
`NaN` (no leading numeric prefix).  JS doubles are modelled by exact
rationals; the importer only parses, range-compares and stores these values,
so rounding to binary floating point is not observable in any property
proved below. -/
def jsParseFloat (s : String) : Option Rat :=
  let cs := s.data.dropWhile isWsChar
  let (sgn, cs) : Rat × List Char :=
    match cs with
    | '-' :: rest => (-1, rest)
    | '+' :: rest => (1, rest)
    | rest => (1, rest)
  let intPart := leadingDigits cs
  let cs1 := cs.drop intPart.length
  let (fracPart, cs2) : List Char × List Char :=
    match cs1 with
    | '.' :: rest => (leadingDigits rest, rest.drop (leadingDigits rest).length)
    | rest => ([], rest)
  if intPart.isEmpty && fracPart.isEmpty then none
  else
    let mant : Rat :=
      (digitsVal intPart : Rat) + (digitsVal fracPart : Rat) / ((10 : Rat) ^ fracPart.length)
    let e := parseExpPart cs2
    some (sgn * mant * (10 : Rat) ^ e)

/-! ## SpreadsheetProcessor -/

/-- Row of the NAWS spreadsheet after normalization.  Every recognized column
is present; absent/undefined cells are the empty string (see the header
comment for why this models the TS optional fields faithfully). -/
structure NAWSRow where
  delete : String := ""
  parentname : String := ""
  committee : String := ""
  committeename : String := ""
  arearegion : String := ""
  day : String := ""
  time : String := ""
  place : String := ""
  address : String := ""
  city : String := ""
  locborough : String := ""
  state : String := ""
  zip : String := ""
  country : String := ""
  directions : String := ""
  closed : String := ""
  wheelchr : String := ""
  format1 : String := ""
  format2 : String := ""
  format3 : String := ""
  format4 : String := ""
  format5 : String := ""
  longitude : String := ""
  latitude : String := ""
  room : String := ""
  phonemeetingnumber : String := ""
  virtualmeetinglink : String := ""
  virtualmeetinginfo : String := ""
  timezone : String := ""
deriving DecidableEq

/-- Dynamic field access `nawsRow[name]`, as used by the format columns and
required-column loops in the sources. -/
def getField (nr : NAWSRow) : String → String
  | "delete" => nr.delete
  | "parentname" => nr.parentname
  | "committee" => nr.committee
  | "committeename" => nr.committeename
  | "arearegion" => nr.arearegion
  | "day" => nr.day
  | "time" => nr.time
  | "place" => nr.place
  | "address" => nr.address
  | "city" => nr.city
  | "locborough" => nr.locborough
  | "state" => nr.state
  | "zip" => nr.zip
  | "country" => nr.country
  | "directions" => nr.directions
  | "closed" => nr.closed
  | "wheelchr" => nr.wheelchr
  | "format1" => nr.format1
  | "format2" => nr.format2
  | "format3" => nr.format3
  | "format4" => nr.format4
  | "format5" => nr.format5
  | "longitude" => nr.longitude
  | "latitude" => nr.latitude
  | "room" => nr.room
  | "phonemeetingnumber" => nr.phonemeetingnumber
  | "virtualmeetinglink" => nr.virtualmeetinglink
  | "virtualmeetinginfo" => nr.virtualmeetinginfo
  | "timezone" => nr.timezone
  | _ => ""

/-- EXPECTED_COLUMNS of SpreadsheetProcessor. -/
def EXPECTED_COLUMNS : List String :=
  ["delete", "parentname", "committee", "committeename", "arearegion", "day",
   "time", "place", "address", "city", "locborough", "state", "zip",
   "country", "directions", "closed", "wheelchr", "format1", "format2",
   "format3", "format4", "format5", "longitude", "latitude", "room",
   "phonemeetingnumber", "virtualmeetinglink", "virtualmeetinginfo",
   "timezone"]

/-- REQUIRED_COLUMNS of SpreadsheetProcessor. -/
def REQUIRED_COLUMNS : List String :=
  ["committeename", "arearegion", "day", "time"]

/-- isValidDay: the seven English weekday names, case-insensitively. -/
def isValidDay (day : String) : Bool :=
  ["sunday", "monday", "tuesday", "wednesday", "thursday", "friday",
   "saturday"].contains (jsLower day)

/-- isValidTime: strips non-digit non-colon characters, then accepts a bare
3-or-4 digit HHMM value or a two-part colon value, with hour in [0,23] and
minute in [0,59]; a NaN parse fails every comparison. -/
def isValidTime (time : String) : Bool :=
  let timeStr := stripTimeChars time
  if timeStr.length == 3 || timeStr.length == 4 then
    match jsParseInt timeStr with
    | none => false
    | some num => decide (num / 100 ≤ 23) && decide (num % 100 ≤ 59)
  else if strContains timeStr ':' then
    match splitColon timeStr with
    | [h, m] =>
      match jsParseInt h, jsParseInt m with
      | some hours, some minutes => decide (hours ≤ 23) && decide (minutes ≤ 59)
      | _, _ => false
    | _ => false
  else false

/-- isValidCoordinate: parseFloat the cell and range-check it.  An infinite
parseFloat result fails the range check in JS exactly as the `none` branch
does here, so the verdict agrees with the source on every input. -/
def isValidCoordinate (coord : String) (lo hi : Rat) : Bool :=
  match jsParseFloat coord with
  | none => false
  | some v => decide (lo ≤ v) && decide (v ≤ hi)

/-- formatTimeForBMLT: strip non-digit non-colon characters; a 3-or-4 long
value is formatted as `floor(parseInt/100)` hours and `parseInt % 100`
minutes; a two-part colon value is formatted part-wise; everything else
falls back to the fixed default.  No hour or minute range check is
performed on this path (that check lives only in isValidTime). -/
def formatTimeForBMLT (time : String) : String :=
  let timeStr := stripTimeChars time
  if timeStr.length == 3 || timeStr.length == 4 then
    let num := jsParseInt timeStr
    padOpt (num.map (fun n => n / 100)) ++ ":" ++ padOpt (num.map (fun n => n % 100))
  else if strContains timeStr ':' then
    match splitColon timeStr with
    | [h, m] => padOpt (jsParseInt h) ++ ":" ++ padOpt (jsParseInt m)
    | _ => "12:00"
  else "12:00"

/-- mapDayToBMLT: fixed case-insensitive weekday lookup, unknown maps to 0. -/
def mapDayToBMLT (day : String) : Nat :=
  match jsLower day with
  | "sunday" => 0
  | "monday" => 1
  | "tuesday" => 2
  | "wednesday" => 3
  | "thursday" => 4
  | "friday" => 5
  | "saturday" => 6
  | _ => 0

/-- Output of validateAndProcess. -/
structure ProcessedSpreadsheet where
  rows : List NAWSRow := []
  totalRows : Nat := 0
  validRows : Nat := 0
  errors : List String := []
  warnings : List String := []
deriving DecidableEq

/-- Cell extraction for one recognized column: the column index comes from
the header row; a cell beyond the row length, or in an unmapped column, or
falsy (empty) yields the empty string, otherwise the trimmed cell. -/
def cellVal (headers : List String) (row : List String) (name : String) : String :=
  match headers.findIdx? (fun h => h == name) with
  | some idx => if idx < row.length then jsTrim (row.getD idx "") else ""
  | none => ""

/-- Build the normalized NAWSRow of one raw data row (the column-mapping loop
of validateAndProcess). -/
def buildNawsRow (headers : List String) (row : List String) : NAWSRow :=
  { delete := cellVal headers row "delete"
    parentname := cellVal headers row "parentname"
    committee := cellVal headers row "committee"
    committeename := cellVal headers row "committeename"
    arearegion := cellVal headers row "arearegion"
    day := cellVal headers row "day"
    time := cellVal headers row "time"
    place := cellVal headers row "place"
    address := cellVal headers row "address"
    city := cellVal headers row "city"
    locborough := cellVal headers row "locborough"
    state := cellVal headers row "state"
    zip := cellVal headers row "zip"
    country := cellVal headers row "country"
    directions := cellVal headers row "directions"
    closed := cellVal headers row "closed"
    wheelchr := cellVal headers row "wheelchr"
    format1 := cellVal headers row "format1"
    format2 := cellVal headers row "format2"
    format3 := cellVal headers row "format3"
    format4 := cellVal headers row "format4"
    format5 := cellVal headers row "format5"
    longitude := cellVal headers row "longitude"
    latitude := cellVal headers row "latitude"
    room := cellVal headers row "room"
    phonemeetingnumber := cellVal headers row "phonemeetingnumber"
    virtualmeetinglink := cellVal headers row "virtualmeetinglink"
    virtualmeetinginfo := cellVal headers row "virtualmeetinginfo"
    timezone := cellVal headers row "timezone" }

/-- Accumulator state of the per-row loop of validateAndProcess. -/
structure VState where
  rows : List NAWSRow := []
  validRows : Nat := 0
  warnings : List String := []
deriving DecidableEq

/-- One iteration of the data-row loop of validateAndProcess; `i` is the
0-based index of the row in the raw grid (warnings are tagged `Row i+1`).
An empty raw row and a delete-flagged row both `continue` without touching
the state beyond nothing at all (empty) or nothing (deleted). -/
def processDataRow (headers : List String) (i : Nat) (st : VState)
    (row : List String) : VState :=
  if row.isEmpty then st
  else
    let nr := buildNawsRow headers row
    if jsUpper nr.delete == "D" then st
    else
      let reqWarnings := REQUIRED_COLUMNS.filterMap (fun c =>
        if jsTrim (getField nr c) == "" then
          some ("Row " ++ toString (i + 1) ++ ": Missing required field \x27" ++ c ++ "\x27")
        else none)
      let hasReq0 := REQUIRED_COLUMNS.all (fun c => !(jsTrim (getField nr c) == ""))
      let dayBad := nr.day != "" && !isValidDay nr.day
      let timeBad := nr.time != "" && !isValidTime nr.time
      let lonBad := nr.longitude != "" && !isValidCoordinate nr.longitude (-180) 180
      let latBad := nr.latitude != "" && !isValidCoordinate nr.latitude (-90) 90
      let warnings := st.warnings ++ reqWarnings
        ++ (if dayBad then ["Row " ++ toString (i + 1) ++ ": Invalid day value \x27" ++ nr.day ++ "\x27"] else [])
        ++ (if timeBad then ["Row " ++ toString (i + 1) ++ ": Invalid time format \x27" ++ nr.time ++ "\x27"] else [])
        ++ (if lonBad then ["Row " ++ toString (i + 1) ++ ": Invalid longitude \x27" ++ nr.longitude ++ "\x27"] else [])
        ++ (if latBad then ["Row " ++ toString (i + 1) ++ ": Invalid latitude \x27" ++ nr.latitude ++ "\x27"] else [])
      let hasRequiredData := hasReq0 && !dayBad && !timeBad
      { rows := st.rows ++ [nr]
        validRows := st.validRows + (if hasRequiredData then 1 else 0)
        warnings := warnings }

/-- The data-row loop of validateAndProcess, `i` counting raw grid indices
from 1 (the first data row). -/
def processRows (headers : List String) : Nat → VState → List (List String) → VState
  | _, st, [] => st
  | i, st, row :: rest => processRows headers (i + 1) (processDataRow headers i st row) rest

/-- validateAndProcess over the raw 2-D grid (first row = headers).  The JS
function dereferences `rawData[0]` unconditionally, so an empty grid throws
(TypeError, rethrown by processFile); that path is `none`. -/
def validateAndProcess : List (List String) → Option ProcessedSpreadsheet
  | [] => none
  | header :: dataRows =>
    let headers := header.map (fun h => jsTrim (jsLower h))
    let missingColumns := EXPECTED_COLUMNS.filter (fun c =>
      (headers.findIdx? (fun h => h == c)).isNone)
    if !missingColumns.isEmpty then
      some { rows := [], totalRows := dataRows.length, validRows := 0,
             errors := ["Missing required columns: " ++ joinCommaSpace missingColumns],
             warnings := [] }
    else
      let fin := processRows headers 1 {} dataRows
      some { rows := fin.rows, totalRows := dataRows.length,
             validRows := fin.validRows,
             errors := if fin.validRows == 0 then ["No valid meeting data found in spreadsheet"] else [],
             warnings := fin.warnings }

/-! ## NAWSMapper -/

/-- Remote service body (the fields the importer reads). -/
structure ServiceBody where
  id : Nat := 0
  name : String := ""
  worldId : String := ""
  adminUserId : Nat := 0
deriving DecidableEq

/-- Remote format (the fields the importer reads). -/
structure Format where
  id : Nat := 0
  worldId : String := ""
deriving DecidableEq

/-- The fully mapped meeting create-request, field for field as built by
mapNAWSRowToMeeting (coordinates as exact rationals, see header comment). -/
structure MeetingCreate where
  serviceBodyId : Nat := 0
  formatIds : List Nat := []
  venueType : Nat := 1
  temporarilyVirtual : Bool := false
  day : Nat := 0
  startTime : String := ""
  duration : String := ""
  timeZone : String := ""
  latitude : Rat := 0
  longitude : Rat := 0
  published : Bool := true
  email : String := ""
  worldId : String := ""
  name : String := ""
  locationText : String := ""
  locationInfo : String := ""
  locationStreet : String := ""
  locationNeighborhood : String := ""
  locationCitySubsection : String := ""
  locationMunicipality : String := ""
  locationSubProvince : String := ""
  locationProvince : String := ""
  locationPostalCode1 : String := ""
  locationNation : String := ""
  phoneMeetingNumber : String := ""
  virtualMeetingLink : String := ""
  virtualMeetingAdditionalInfo : String := ""
  contactName1 : String := ""
  contactName2 : String := ""
  contactPhone1 : String := ""
  contactPhone2 : String := ""
  contactEmail1 : String := ""
  contactEmail2 : String := ""
  busLines : String := ""
  trainLines : String := ""
  comments : String := ""
deriving DecidableEq

/-- MappingOptions of the NAWSMapper constructor. -/
structure MappingOptions where
  serviceBodies : List ServiceBody := []
  formats : List Format := []
  defaultDuration : String := ""
  defaultLatitude : Rat := 0
  defaultLongitude : Rat := 0
  defaultPublished : Bool := true
deriving DecidableEq

/-- MappingResult of mapNAWSRowToMeeting. -/
structure MappingResult where
  meeting : Option MeetingCreate := none
  errors : List String := []
  warnings : List String := []
deriving DecidableEq

/-- Insertion-ordered JS `Map.set` on an association list: an existing key is
updated in place (last value wins), a new key is appended. -/
def jsMapSet (m : List (String × Nat)) (k : String) (v : Nat) : List (String × Nat) :=
  if m.any (fun p => p.1 == k) then
    m.map (fun p => if p.1 == k then (k, v) else p)
  else m ++ [(k, v)]

/-- Append an id to the list stored under a key of the format map, creating
the key with an empty list first when absent (the `if (!map.has) set([])`
followed by `get.push` of buildFormatWorldIdMap). -/
def jsMapPush (m : List (String × List Nat)) (k : String) (v : Nat) :
    List (String × List Nat) :=
  if m.any (fun p => p.1 == k) then
    m.map (fun p => if p.1 == k then (p.1, p.2 ++ [v]) else p)
  else m ++ [(k, [v])]

/-- First-match association lookup (JS `Map.get`). -/
def jsMapGetN (m : List (String × Nat)) (k : String) : Option Nat :=
  (m.find? (fun p => p.1 == k)).map Prod.snd

/-- First-match association lookup on the format map. -/
def jsMapGetL (m : List (String × List Nat)) (k : String) : Option (List Nat) :=
  (m.find? (fun p => p.1 == k)).map Prod.snd

/-- buildFormatWorldIdMap: uppercased worldId to the ids of every format
carrying it (one-to-many), skipping formats without a worldId. -/
def buildFormatWorldIdMap (formats : List Format) : List (String × List Nat) :=
  formats.foldl (fun m f =>
    if f.worldId != "" then jsMapPush m (jsUpper f.worldId) f.id else m) []

/-- buildServiceBodyWorldIdMap: uppercased worldId to service body id, last
occurrence wins, skipping service bodies without a worldId. -/
def buildServiceBodyWorldIdMap (sbs : List ServiceBody) : List (String × Nat) :=
  sbs.foldl (fun m sb =>
    if sb.worldId != "" then jsMapSet m (jsUpper sb.worldId) sb.id else m) []

/-- The state a constructed NAWSMapper instance carries. -/
structure MapperData where
  serviceBodyWorldIdMap : List (String × Nat) := []
  formatWorldIdMap : List (String × List Nat) := []
  defaultDuration : String := ""
  defaultLatitude : Rat := 0
  defaultLongitude : Rat := 0
  defaultPublished : Bool := true
deriving DecidableEq

/-- The NAWSMapper constructor. -/
def mkMapper (opts : MappingOptions) : MapperData :=
  { serviceBodyWorldIdMap := buildServiceBodyWorldIdMap opts.serviceBodies
    formatWorldIdMap := buildFormatWorldIdMap opts.formats
    defaultDuration := opts.defaultDuration
    defaultLatitude := opts.defaultLatitude
    defaultLongitude := opts.defaultLongitude
    defaultPublished := opts.defaultPublished }

/-- determineVenueType: a non-blank address OR a non-blank city counts as a
physical location; a non-blank virtual link or phone number counts as
virtual info; both present is Hybrid (3), only virtual is Virtual (2),
everything else is In-Person (1). -/
def determineVenueType (nr : NAWSRow) : Nat :=
  let hasPhysicalLocation := jsTrim nr.address != "" || jsTrim nr.city != ""
  let hasVirtualInfo := jsTrim nr.virtualmeetinglink != "" || jsTrim nr.phonemeetingnumber != ""
  if hasPhysicalLocation && hasVirtualInfo then 3
  else if hasVirtualInfo then 2
  else 1

/-- Modelled from the claim wording of C2 (not from the source): venue
classification in which the street-address field is the only signal of a
physical location, to be compared against `determineVenueType`. -/
def venueTypeAddressOnly (nr : NAWSRow) : Nat :=
  let hasPhysicalLocation := jsTrim nr.address != ""
  let hasVirtualInfo := jsTrim nr.virtualmeetinglink != "" || jsTrim nr.phonemeetingnumber != ""
  if hasPhysicalLocation && hasVirtualInfo then 3
  else if hasVirtualInfo then 2
  else 1

/-- buildLocationInfo: comma-joined room then directions, skipping blanks. -/
def buildLocationInfo (nr : NAWSRow) : String :=
  joinCommaSpace
    ((if jsTrim nr.room != "" then [jsTrim nr.room] else [])
      ++ (if jsTrim nr.directions != "" then [jsTrim nr.directions] else []))

/-- parseCoordinate: blank or unparsable input falls back to the supplied
default, otherwise the parsed value. -/
def parseCoordinate (coord : String) (defaultValue : Rat) : Rat :=
  if jsTrim coord == "" then defaultValue
  else
    match jsParseFloat coord with
    | none => defaultValue
    | some v => v

/-- Ordered set insertion (JS `Set.add` followed by `Array.from`). -/
def addUniqueN (l : List Nat) (x : Nat) : List Nat :=
  if l.contains x then l else l ++ [x]

/-- Ordered set insertion for strings. -/
def addUniqueS (l : List String) (x : String) : List String :=
  if l.contains x then l else l ++ [x]

/-- The format-bearing columns scanned by mapFormats and getFormatStats. -/
def formatColumns : List String :=
  ["closed", "format1", "format2", "format3", "format4", "format5"]

/-- mapFormats: wheelchair flag then the format columns, each resolved
case-insensitively against the format map; unresolved codes produce a
warning and are dropped; the id set is deduplicated in insertion order.
Returns the ids and the warnings pushed into the mapping result. -/
def mapFormats (md : MapperData) (nr : NAWSRow) (rowIndex : Nat) :
    List Nat × List String :=
  let step0 : List Nat × List String :=
    if jsLower nr.wheelchr == "true" || nr.wheelchr == "1" then
      match jsMapGetL md.formatWorldIdMap "WCHR" with
      | some fs => (fs.foldl addUniqueN [], [])
      | none => ([], ["Row " ++ toString rowIndex ++ ": Wheelchair format (WCHR) not found"])
    else ([], [])
  formatColumns.foldl (fun acc column =>
    let v := getField nr column
    if v != "" && jsTrim v != "" then
      match jsMapGetL md.formatWorldIdMap (jsUpper v) with
      | some fs => (fs.foldl addUniqueN acc.1, acc.2)
      | none => (acc.1, acc.2 ++ ["Row " ++ toString rowIndex ++ ": Format \x27" ++ v ++ "\x27 not found in " ++ column])
    else acc) step0

/-- mapNAWSRowToMeeting: skip deleted rows, validate the four required
fields, resolve the service body (a falsy id, absent or zero, is a hard
error), then build the meeting object.  The object construction cannot
throw in this model, so the catch branch of the source is unreachable. -/
def mapNAWSRowToMeeting (md : MapperData) (nr : NAWSRow) (rowIndex : Nat) :
    MappingResult :=
  if jsUpper nr.delete == "D" then {}
  else if jsTrim nr.committeename == "" then
    { errors := ["Row " ++ toString rowIndex ++ ": Missing meeting name (committeename)"] }
  else if jsTrim nr.arearegion == "" then
    { errors := ["Row " ++ toString rowIndex ++ ": Missing area/region (arearegion)"] }
  else if jsTrim nr.day == "" then
    { errors := ["Row " ++ toString rowIndex ++ ": Missing day"] }
  else if jsTrim nr.time == "" then
    { errors := ["Row " ++ toString rowIndex ++ ": Missing time"] }
  else
    let sbLookup := jsMapGetN md.serviceBodyWorldIdMap (jsUpper nr.arearegion)
    if sbLookup.getD 0 == 0 then
      { errors := ["Row " ++ toString rowIndex ++ ": Service body not found for area/region \x27" ++ nr.arearegion ++ "\x27"] }
    else
      let serviceBodyId := sbLookup.getD 0
      let fmts := mapFormats md nr rowIndex
      let meeting : MeetingCreate :=
        { serviceBodyId := serviceBodyId
          formatIds := fmts.1
          venueType := determineVenueType nr
          temporarilyVirtual := false
          day := mapDayToBMLT nr.day
          startTime := formatTimeForBMLT nr.time
          duration := md.defaultDuration
          timeZone := nr.timezone
          latitude := parseCoordinate nr.latitude md.defaultLatitude
          longitude := parseCoordinate nr.longitude md.defaultLongitude
          published := md.defaultPublished
          email := ""
          worldId := nr.committee
          name := nr.committeename
          locationText := nr.place
          locationInfo := buildLocationInfo nr
          locationStreet := nr.address
          locationNeighborhood := nr.locborough
          locationCitySubsection := ""
          locationMunicipality := nr.city
          locationSubProvince := ""
          locationProvince := nr.state
          locationPostalCode1 := nr.zip
          locationNation := nr.country
          phoneMeetingNumber := nr.phonemeetingnumber
          virtualMeetingLink := nr.virtualmeetinglink
          virtualMeetingAdditionalInfo := nr.virtualmeetinginfo }
      { meeting := some meeting, warnings := fmts.2 }

/-- getFormatStats: split every referenced format code of the non-deleted
rows into found and missing against the format map, in first-seen order. -/
def getFormatStats (md : MapperData) (rows : List NAWSRow) :
    List String × List String :=
  rows.foldl (fun acc row =>
    if jsUpper row.delete == "D" then acc
    else
      let acc1 :=
        if jsLower row.wheelchr == "true" || row.wheelchr == "1" then
          if (jsMapGetL md.formatWorldIdMap "WCHR").isSome then
            (addUniqueS acc.1 "WCHR", acc.2)
          else (acc.1, addUniqueS acc.2 "WCHR")
        else acc
      formatColumns.foldl (fun a column =>
        let v := getField row column
        if jsTrim v != "" then
          if (jsMapGetL md.formatWorldIdMap (jsUpper v)).isSome then
            (addUniqueS a.1 (jsUpper v), a.2)
          else (a.1, addUniqueS a.2 (jsUpper v))
        else a) acc1) ([], [])

/-! ## ServiceBodyCreator -/

/-- Remote user (the fields the importer reads). -/
structure User where
  id : Nat := 0
  username : String := ""
deriving DecidableEq

/-- ServiceBodyCreate request, field for field as built by
createServiceBodyWithUser. -/
structure ServiceBodyCreate where
  parentId : Option Nat := none
  name : String := ""
  description : String := ""
  type : String := ""
  adminUserId : Nat := 0
  assignedUserIds : List Nat := []
  worldId : String := ""
  email : String := ""
  helpline : String := ""
  url : String := ""
deriving DecidableEq

/-- A required area extracted from the spreadsheet: normalized worldId plus
first-seen display name. -/
structure Area where
  worldId : String := ""
  name : String := ""
deriving DecidableEq

/-- Environment fixing the outcome of the remote calls the service-body
reconciliation performs: the service-body list fetch, the current
authenticated user id carried by the API token, user lookup, and
service-body creation. -/
structure SBEnv where
  getServiceBodies : Except String (List ServiceBody)
  currentUserId : Option Nat := none
  getUser : Nat → Except String User := fun _ => .error "not found"
  createServiceBody : ServiceBodyCreate → Except String ServiceBody := fun _ => .error "failed"

/-- ServiceBodyCreationResult. -/
structure ServiceBodyCreationResult where
  serviceBody : ServiceBody
  user : User
  isNewServiceBody : Bool
deriving DecidableEq

/-- ServiceBodyCreationStats. -/
structure ServiceBodyCreationStats where
  totalProcessed : Nat := 0
  servicesBodiesCreated : Nat := 0
  errors : List String := []
  warnings : List String := []
  results : List ServiceBodyCreationResult := []
deriving DecidableEq

/-- determineServiceBodyType: an AR-prefixed code is an Area, everything
else a Region. -/
def determineServiceBodyType (worldId : String) : String :=
  if (jsUpper worldId).data.take 2 == ['A', 'R'] then "AS" else "RS"

/-- createServiceBodyWithUser: re-fetch the remote list and reuse a matching
service body when its admin user resolves; otherwise resolve the current
identity (failure is a thrown error, here `.error`), reuse the matching
body with the current user, or create a new one. -/
def createServiceBodyWithUser (env : SBEnv) (worldId areaName : String) :
    Except String ServiceBodyCreationResult :=
  match env.getServiceBodies with
  | .error m => .error m
  | .ok sbs =>
    let existingServiceBody := sbs.find? (fun sb =>
      sb.worldId != "" && jsUpper sb.worldId == jsUpper worldId)
    let principalUser : Option User :=
      match existingServiceBody with
      | some esb =>
        match env.getUser esb.adminUserId with
        | .ok u => some u
        | .error _ => none
      | none => none
    match existingServiceBody, principalUser with
    | some esb, some pu => .ok ⟨esb, pu, false⟩
    | _, _ =>
      match env.currentUserId with
      | none => .error "Failed to get current user for service body admin: No current user found - please ensure you are logged in"
      | some uid =>
        match env.getUser uid with
        | .error m => .error ("Failed to get current user for service body admin: " ++ m)
        | .ok adminUser =>
          match existingServiceBody with
          | some esb => .ok ⟨esb, adminUser, false⟩
          | none =>
            let sbc : ServiceBodyCreate :=
              { parentId := none
                name := areaName
                description := areaName
                type := determineServiceBodyType worldId
                adminUserId := adminUser.id
                assignedUserIds := [adminUser.id]
                worldId := worldId }
            match env.createServiceBody sbc with
            | .ok sb => .ok ⟨sb, adminUser, true⟩
            | .error m => .error ("Failed to create service body: " ++ m)

/-- The sequential entry loop of createMissingServiceBodies: every thrown
error of createServiceBodyWithUser is caught, recorded as a per-entry error
string, and the loop continues with the next entry. -/
def sbLoop (env : SBEnv) : List Area → ServiceBodyCreationStats → ServiceBodyCreationStats
  | [], stats => stats
  | area :: rest, stats =>
    let stats1 := { stats with totalProcessed := stats.totalProcessed + 1 }
    let stats2 :=
      match createServiceBodyWithUser env area.worldId area.name with
      | .ok result =>
        { stats1 with
          results := stats1.results ++ [result]
          servicesBodiesCreated :=
            stats1.servicesBodiesCreated + (if result.isNewServiceBody then 1 else 0) }
      | .error m =>
        { stats1 with
          errors := stats1.errors ++
            ["Failed to create service body for " ++ area.name ++ " (" ++ area.worldId ++ "): " ++ m] }
    sbLoop env rest stats2

/-- createMissingServiceBodies over an explicit remote environment. -/
def createMissingServiceBodies (env : SBEnv) (missingAreas : List Area) :
    ServiceBodyCreationStats :=
  sbLoop env missingAreas {}

/-- extractUniqueAreas: skip deleted rows and rows missing the code or the
display name; deduplicate by uppercased code, first-seen name wins; the
emitted worldId is the normalized (uppercased) code. -/
def extractUniqueAreas (rows : List NAWSRow) : List Area :=
  rows.foldl (fun acc row =>
    if jsUpper row.delete == "D" then acc
    else
      let worldId := jsTrim row.arearegion
      let name := jsTrim row.parentname
      if worldId != "" && name != "" then
        let normalized := jsUpper worldId
        if acc.any (fun a => a.worldId == normalized) then acc
        else acc ++ [⟨normalized, name⟩]
      else acc) []

/-- findMissingServiceBodies: the required areas whose code is absent from
the remote list, compared case-insensitively; the remote fetch may fail
(thrown upward). -/
def findMissingServiceBodies (env : SBEnv) (requiredAreas : List Area) :
    Except String (List Area) :=
  match env.getServiceBodies with
  | .error m => .error m
  | .ok sbs =>
    let existingWorldIds := sbs.filterMap (fun sb =>
      if sb.worldId != "" then some (jsUpper sb.worldId) else none)
    .ok (requiredAreas.filter (fun a => !(existingWorldIds.contains (jsUpper a.worldId))))

/-! ## MeetingImportService -/

/-- Created remote meeting (the fields the importer reads back). -/
structure Meeting where
  id : Nat := 0
  worldId : String := ""
deriving DecidableEq

/-- Outcome of the per-row closure inside createMeetingsInBatches. -/
structure RowOutcome where
  success : Bool := false
  skipped : Bool := false
  meeting : Option Meeting := none
  errors : List String := []
deriving DecidableEq

/-- The per-row closure of createMeetingsInBatches: duplicate pre-check on
the trimmed, uppercased committee code, then mapping, then the remote
create call; a rejected create call is reduced to a flattened message
(`create` already returns the flattened message of the response body). -/
def processRow (create : Nat → MeetingCreate → Except String Meeting)
    (md : MapperData) (existingWorldIds : List String) (rowIndex : Nat)
    (row : NAWSRow) : RowOutcome :=
  let worldId := jsTrim row.committee
  if worldId != "" && existingWorldIds.contains (jsUpper worldId) then
    { success := false, skipped := true, meeting := none,
      errors := ["Row " ++ toString rowIndex ++ ": Meeting with worldId \x27" ++ worldId ++ "\x27 already exists - skipped"] }
  else
    let mappingResult := mapNAWSRowToMeeting md row rowIndex
    match mappingResult.meeting with
    | some m =>
      match create rowIndex m with
      | .ok createdMeeting =>
        { success := true, skipped := false, meeting := some createdMeeting,
          errors := mappingResult.errors }
      | .error msg =>
        { success := false, skipped := false, meeting := none,
          errors := ["Row " ++ toString rowIndex ++ ": Failed to create meeting - " ++ msg] }
    | none =>
      { success := false, skipped := false, meeting := none,
        errors := if mappingResult.errors.length > 0 then mappingResult.errors
          else ["Row " ++ toString rowIndex ++ ": Failed to map meeting data"] }

/-- Aggregate carried across batches by createMeetingsInBatches, together
with the separately tracked exact success counter. -/
structure BatchResult where
  successful : List Meeting := []
  successfulCount : Nat := 0
  failed : Nat := 0
  skipped : Nat := 0
  errors : List String := []
deriving DecidableEq

/-- MAX_STORED_MEETINGS of createMeetingsInBatches. -/
def MAX_STORED_MEETINGS : Nat := 10

/-- MAX_STORED_ERRORS of createMeetingsInBatches. -/
def MAX_STORED_ERRORS : Nat := 50

/-- The forEach body aggregating one row outcome: a success always bumps the
exact counter and is stored only below the meeting cap; otherwise the skip
or failure counter is bumped; error strings are appended only up to the
error cap. -/
def stepOutcome (acc : BatchResult) (o : RowOutcome) : BatchResult :=
  let acc1 :=
    match o.success, o.meeting with
    | true, some m =>
      { acc with
        successfulCount := acc.successfulCount + 1
        successful :=
          if acc.successful.length < MAX_STORED_MEETINGS then acc.successful ++ [m]
          else acc.successful }
    | _, _ =>
      if o.skipped then { acc with skipped := acc.skipped + 1 }
      else { acc with failed := acc.failed + 1 }
  if acc1.errors.length < MAX_STORED_ERRORS then
    { acc1 with errors := acc1.errors ++ o.errors.take (MAX_STORED_ERRORS - acc1.errors.length) }
  else acc1

/-- Outcomes of a list of rows processed in order, the first receiving
1-based spreadsheet row number `j + 2`. -/
def processAll (create : Nat → MeetingCreate → Except String Meeting)
    (md : MapperData) (existingWorldIds : List String) :
    Nat → List NAWSRow → List RowOutcome
  | _, [] => []
  | j, row :: rest =>
    processRow create md existingWorldIds (j + 2) row ::
      processAll create md existingWorldIds (j + 1) rest

/-- Successive batches of at most BATCH_SIZE = 5 rows. -/
def chunksOf5 : List α → List (List α)
  | [] => []
  | [a] => [[a]]
  | [a, b] => [[a, b]]
  | [a, b, c] => [[a, b, c]]
  | [a, b, c, d] => [[a, b, c, d]]
  | a :: b :: c :: d :: e :: rest => [a, b, c, d, e] :: chunksOf5 rest

/-- The batch loop of createMeetingsInBatches: the abort signal is polled
before each batch with the batch's start index (a set signal throws the
AbortError, modelled as `.error ()`); the rows of a batch are submitted
together (`Promise.all` preserves order) and folded into the aggregate; the
inter-batch pacing delay has no observable effect in this model. -/
def runBatches (create : Nat → MeetingCreate → Except String Meeting)
    (md : MapperData) (existingWorldIds : List String) (aborted : Nat → Bool) :
    Nat → BatchResult → List (List NAWSRow) → Except Unit BatchResult
  | _, acc, [] => .ok acc
  | i, acc, batch :: rest =>
    if aborted i then .error ()
    else
      let outcomes := processAll create md existingWorldIds i batch
      runBatches create md existingWorldIds aborted (i + 5)
        (outcomes.foldl stepOutcome acc) rest

/-- The filter selecting the rows createMeetingsInBatches actually submits:
not delete-flagged and all four required fields non-blank. -/
def isSubmittableRow (row : NAWSRow) : Bool :=
  jsUpper row.delete != "D" && jsTrim row.committeename != "" &&
    jsTrim row.arearegion != "" && jsTrim row.day != "" && jsTrim row.time != ""

/-- createMeetingsInBatches: filter to submittable rows, process them in
batches of 5 starting at index 0, and return the aggregate with the exact
success counter; an observed abort signal propagates as `.error ()`
(the thrown AbortError). -/
def createMeetingsInBatches (create : Nat → MeetingCreate → Except String Meeting)
    (md : MapperData) (existingWorldIds : List String) (aborted : Nat → Bool)
    (nawsRows : List NAWSRow) : Except Unit BatchResult :=
  let validRows := nawsRows.filter isSubmittableRow
  runBatches create md existingWorldIds aborted 0 {} (chunksOf5 validRows)

/-- getExistingMeetingWorldIds: collect the trimmed, uppercased world codes
of the existing remote meetings, skipping blank codes; a failed fetch
degrades to the empty set. -/
def getExistingMeetingWorldIds (fetch : Except String (List Meeting)) : List String :=
  match fetch with
  | .error _ => []
  | .ok meetings =>
    meetings.foldl (fun acc m =>
      if m.worldId != "" && jsTrim m.worldId != "" then
        addUniqueS acc (jsUpper (jsTrim m.worldId))
      else acc) []

/-- ImportResult returned by importFromFile.  The wall-clock `duration`
field is not modelled (real time); no other field is omitted. -/
structure ImportResult where
  success : Bool := false
  totalProcessed : Nat := 0
  successfulImports : Nat := 0
  failedImports : Nat := 0
  skippedImports : Nat := 0
  servicesBodiesCreated : Nat := 0
  errors : List String := []
  warnings : List String := []
  createdMeetings : List Meeting := []
deriving DecidableEq

/-- Caller options of importFromFile; `none` models an omitted option. -/
structure ImportOptions where
  defaultDuration : Option String := none
  defaultLatitude : Option Rat := none
  defaultLongitude : Option Rat := none
  defaultPublished : Option Bool := none

/-- Environment fixing the outcome of every remote interaction of one
importFromFile run: the spreadsheet processing step, the parallel service
body and format fetch, the service-body reconciliation environment, the
post-creation service-body re-fetch, the existing-meetings fetch of the
duplicate pre-check, the per-row meeting create call, and the abort signal
sampled at the successive cancellation checkpoints (0 after file
processing, 1 after the server fetch, 2 before meeting creation, then
3 + batch number before each batch). -/
structure ImportEnv where
  processed : Except String ProcessedSpreadsheet
  serverFetch : Except String (List ServiceBody × List Format)
  sbEnv : SBEnv
  updatedServiceBodies : Except String (List ServiceBody)
  getMeetings : Except String (List Meeting)
  createMeeting : Nat → MeetingCreate → Except String Meeting
  abortedAt : Nat → Bool

/-- Exceptions crossing the top-level try/catch of importFromFile, carrying
the progressively mutated result object at the throw site: the AbortError
of a cancellation, or an ordinary error with its message. -/
inductive ImportThrown where
  | abortErr (r : ImportResult)
  | err (r : ImportResult) (msg : String)

/-- The `||`-defaulting of a caller-supplied duration (empty string is falsy). -/
def resolveDuration (o : Option String) : String :=
  match o with
  | none => "01:00"
  | some s => if s == "" then "01:00" else s

/-- Phase 4 of importFromFile: create the missing service bodies and merge
their stats, or record that none were missing. -/
def sbPhase (env : ImportEnv) (r1 : ImportResult) (missingAreas : List Area) :
    ImportResult :=
  if missingAreas.isEmpty then
    { r1 with warnings := r1.warnings ++ ["All required service bodies already exist"] }
  else
    let stats := createMissingServiceBodies env.sbEnv missingAreas
    let rA := { r1 with
      servicesBodiesCreated := stats.servicesBodiesCreated
      errors := r1.errors ++ stats.errors
      warnings := r1.warnings ++ stats.warnings }
    if stats.servicesBodiesCreated > 0 then
      { rA with warnings := rA.warnings ++
          ["Created " ++ toString stats.servicesBodiesCreated ++ " service bodies (using current user as admin)"] }
    else rA

/-- The updated mapper built after service-body creation: the re-fetched
service bodies replace the initial ones, everything else comes from the
caller options and the initial format fetch. -/
def mapperPhase (opts : ImportOptions) (usbs : List ServiceBody)
    (fmts : List Format) : MapperData :=
  mkMapper
    { serviceBodies := usbs
      formats := fmts
      defaultDuration := resolveDuration opts.defaultDuration
      defaultLatitude := opts.defaultLatitude.getD 0
      defaultLongitude := opts.defaultLongitude.getD 0
      defaultPublished := opts.defaultPublished.getD true }

/-- The missing-format warning appended after the mapper is rebuilt. -/
def formatWarn (md : MapperData) (rows : List NAWSRow) (r2 : ImportResult) :
    ImportResult :=
  let fstats := getFormatStats md rows
  if !fstats.2.isEmpty then
    { r2 with warnings := r2.warnings ++
        ["Missing formats (these will be ignored): " ++ joinCommaSpace fstats.2] }
  else r2

/-- The final merge of the batch aggregate into the result, and the overall
success flag: true exactly when at least one meeting was created. -/
def finishBatches (r3 : ImportResult) (cm : BatchResult) : ImportResult :=
  let r4 := { r3 with
    successfulImports := cm.successfulCount
    failedImports := cm.failed
    skippedImports := cm.skipped
    errors := r3.errors ++ cm.errors
    createdMeetings := cm.successful }
  { r4 with success := decide (0 < r4.successfulImports) }

/-- The body of the top-level try block of importFromFile: the phases in
source order, each throw carrying the result object as mutated so far. -/
def importRun (env : ImportEnv) (opts : ImportOptions) :
    Except ImportThrown ImportResult :=
  match env.processed with
  | .error msg => .error (.err {} msg)
  | .ok ps =>
    if env.abortedAt 0 then .error (.abortErr {})
    else if ps.errors.length > 0 then
      .error (.err { errors := ps.errors } "Spreadsheet processing failed")
    else
      let r1 : ImportResult := { warnings := ps.warnings, totalProcessed := ps.validRows }
      match env.serverFetch with
      | .error msg => .error (.err r1 msg)
      | .ok sf =>
        if env.abortedAt 1 then .error (.abortErr r1)
        else
          match findMissingServiceBodies env.sbEnv (extractUniqueAreas ps.rows) with
          | .error msg => .error (.err r1 msg)
          | .ok missingAreas =>
            let r2 := sbPhase env r1 missingAreas
            match env.updatedServiceBodies with
            | .error msg => .error (.err r2 msg)
            | .ok usbs =>
              let md := mapperPhase opts usbs sf.2
              let r3 := formatWarn md ps.rows r2
              let existingWorldIds := getExistingMeetingWorldIds env.getMeetings
              if env.abortedAt 2 then .error (.abortErr r3)
              else
                match createMeetingsInBatches env.createMeeting md existingWorldIds
                    (fun i => env.abortedAt (3 + i / 5)) ps.rows with
                | .error _ => .error (.abortErr r3)
                | .ok cm => .ok (finishBatches r3 cm)

/-- importFromFile: the try body plus the catch clause, which distinguishes
the AbortError from ordinary errors only by the string appended to the
result's error list (and by the progress message, not modelled); either way
the result object as accumulated at the throw site is returned. -/
def importFromFile (env : ImportEnv) (opts : ImportOptions) : ImportResult :=
  match importRun env opts with
  | .ok r => r
  | .error (.abortErr r) => { r with errors := r.errors ++ ["Import cancelled by user"] }
  | .error (.err r msg) => { r with errors := r.errors ++ [msg] }

/-! ## Concrete fixtures used by witnesses and counterexamples -/

/-- A service body fixture matching the area code of the fixture rows. -/
def sbFix : ServiceBody := { id := 1, name := "Test Area", worldId := "AR1", adminUserId := 1 }

/-- A submittable spreadsheet row that maps and creates successfully. -/
def rowOK : NAWSRow :=
  { committeename := "Test Meeting", arearegion := "AR1", day := "Monday", time := "1930" }

/-- A row missing its required meeting name (filtered out before batching). -/
def rowBad : NAWSRow :=
  { committeename := "", arearegion := "AR1", day := "Monday", time := "1930" }

/-- A row whose committee code collides with an existing remote meeting. -/
def rowDup : NAWSRow :=
  { committeename := "Dup Meeting", arearegion := "AR1", day := "Monday", time := "1930",
    committee := "TST001" }

/-- The create call used by fixtures: every request succeeds. -/
def createOK : Nat → MeetingCreate → Except String Meeting :=
  fun _ _ => .ok { id := 7, worldId := "" }

/-- The mapper the fixture runs construct (defaults, one service body, no
formats). -/
def mdFix : MapperData := mapperPhase {} [sbFix] []

/-- Processed spreadsheet with six valid fixture rows. -/
def psSix : ProcessedSpreadsheet :=
  { rows := List.replicate 6 rowOK, totalRows := 6, validRows := 6 }

/-- Service-body environment in which every required area already exists. -/
def sbEnvFix : SBEnv := { getServiceBodies := .ok [sbFix] }

/-- Import environment whose abort signal becomes set between the first and
the second batch (checkpoints 0,1,2 and batch 0 pass, batch 1 aborts). -/
def envC1 : ImportEnv :=
  { processed := .ok psSix
    serverFetch := .ok ([sbFix], [])
    sbEnv := sbEnvFix
    updatedServiceBodies := .ok [sbFix]
    getMeetings := .ok []
    createMeeting := createOK
    abortedAt := fun k => decide (4 ≤ k) }

/-- Processed spreadsheet with a single valid fixture row. -/
def psOne : ProcessedSpreadsheet :=
  { rows := [rowOK], totalRows := 1, validRows := 1 }

/-- Import environment of a run that completes normally. -/
def envW : ImportEnv :=
  { processed := .ok psOne
    serverFetch := .ok ([sbFix], [])
    sbEnv := sbEnvFix
    updatedServiceBodies := .ok [sbFix]
    getMeetings := .ok []
    createMeeting := createOK
    abortedAt := fun _ => false }

/-- Twelve successful rows: enough to overflow the stored-meetings cap. -/
def rows12 : List NAWSRow := List.replicate 12 rowOK

/-- Service-body environment with no usable authenticated identity. -/
def sbEnvNoUser : SBEnv :=
  { getServiceBodies := .ok []
    currentUserId := none
    getUser := fun _ => .error "nope"
    createServiceBody := fun _ => .error "nope" }

/-- Two areas to reconcile in the no-identity environment. -/
def areasTwo : List Area := [⟨"AR1", "Area One"⟩, ⟨"RG2", "Region Two"⟩]

/-- A row with a city and a virtual link but no street address. -/
def rowCityVirtual : NAWSRow :=
  { committeename := "City Virtual", arearegion := "AR1", day := "Monday", time := "1930",
    city := "Springfield", virtualmeetinglink := "https://zoom.example/j/1" }

/-- A grid fixture: the expected header row, one empty data row, one
delete-flagged data row. -/
def gridFix : List (List String) := [EXPECTED_COLUMNS, [], ["d"]]

/-- Whether a row outcome is aggregated as a success (the condition of the
success branch of the forEach). -/
def isSuccessOutcome (o : RowOutcome) : Bool :=
  o.success && o.meeting.isSome

/-- Number of success outcomes in a list. -/
def countSuccessOutcomes (l : List RowOutcome) : Nat :=
  l.countP isSuccessOutcome

/-- Outcomes of a batch list with the start index of each batch advancing
by the batch size, exactly as the batch loop computes them. -/
def processChunks (create : Nat → MeetingCreate → Except String Meeting)
    (md : MapperData) (existingWorldIds : List String) :
    Nat → List (List NAWSRow) → List RowOutcome
  | _, [] => []
  | i, b :: bs =>
    processAll create md existingWorldIds i b ++
      processChunks create md existingWorldIds (i + 5) bs

/-- The result of the completed fixture run (used as a witness input). -/
def rW : ImportResult :=
  match importRun envW {} with
  | .ok r => r
  | .error _ => {}

/-- The batch aggregate of the twelve-successful-rows fixture. -/
def resTwelve : BatchResult :=
  match createMeetingsInBatches createOK mdFix [] (fun _ => false) rows12 with
  | .ok r => r
  | .error _ => {}

/-- The processed output of the grid fixture. -/
def psGridFix : ProcessedSpreadsheet :=
  (validateAndProcess gridFix).getD {}

/-! ## Lemmas about the batch aggregation -/

theorem stepOutcome_successfulCount (acc : BatchResult) (o : RowOutcome) :
    (stepOutcome acc o).successfulCount =
      acc.successfulCount + (if isSuccessOutcome o then 1 else 0) := by
  rcases o with ⟨s, sk, m, es⟩
  cases s <;> cases m <;> cases sk <;>
    simp [stepOutcome, isSuccessOutcome] <;> split <;> simp

theorem stepOutcome_successful_cases (acc : BatchResult) (o : RowOutcome) :
    (stepOutcome acc o).successful = acc.successful ∨
      ∃ m, acc.successful.length < 10 ∧
        (stepOutcome acc o).successful = acc.successful ++ [m] := by
  rcases o with ⟨s, sk, m, es⟩
  cases s <;> cases m <;> cases sk <;>
    simp only [stepOutcome, MAX_STORED_MEETINGS, MAX_STORED_ERRORS] <;>
    (repeat' split) <;> simp_all

theorem stepOutcome_errors_cases (acc : BatchResult) (o : RowOutcome) :
    (stepOutcome acc o).errors = acc.errors ∨
      (acc.errors.length < 50 ∧
        (stepOutcome acc o).errors = acc.errors ++ o.errors.take (50 - acc.errors.length)) := by
  rcases o with ⟨s, sk, m, es⟩
  cases s <;> cases m <;> cases sk <;>
    simp only [stepOutcome, MAX_STORED_MEETINGS, MAX_STORED_ERRORS] <;>
    (repeat' split) <;> simp_all

theorem stepOutcome_successful_le (acc : BatchResult) (o : RowOutcome)
    (h : acc.successful.length ≤ 10) :
    (stepOutcome acc o).successful.length ≤ 10 := by
  rcases stepOutcome_successful_cases acc o with h1 | ⟨m, hlt, h1⟩
  · rw [h1]; exact h
  · rw [h1]; simp only [List.length_append, List.length_cons, List.length_nil]; omega

theorem stepOutcome_errors_le (acc : BatchResult) (o : RowOutcome)
    (h : acc.errors.length ≤ 50) :
    (stepOutcome acc o).errors.length ≤ 50 := by
  rcases stepOutcome_errors_cases acc o with h1 | ⟨hlt, h1⟩
  · rw [h1]; exact h
  · rw [h1]
    simp only [List.length_append, List.length_take]
    omega

theorem foldl_stepOutcome_count :
    ∀ (os : List RowOutcome) (acc : BatchResult),
      (os.foldl stepOutcome acc).successfulCount =
        acc.successfulCount + countSuccessOutcomes os := by
  intro os
  induction os with
  | nil => intro acc; simp [countSuccessOutcomes]
  | cons o os ih =>
    intro acc
    simp only [List.foldl_cons, ih, stepOutcome_successfulCount,
      countSuccessOutcomes, List.countP_cons]
    by_cases h : isSuccessOutcome o <;> simp [h] <;> omega

theorem foldl_stepOutcome_successful_le :
    ∀ (os : List RowOutcome) (acc : BatchResult),
      acc.successful.length ≤ 10 →
      ((os.foldl stepOutcome acc).successful.length ≤ 10) := by
  intro os
  induction os with
  | nil => intro acc h; simpa using h
  | cons o os ih =>
    intro acc h
    exact ih _ (stepOutcome_successful_le acc o h)

theorem foldl_stepOutcome_errors_le :
    ∀ (os : List RowOutcome) (acc : BatchResult),
      acc.errors.length ≤ 50 →
      ((os.foldl stepOutcome acc).errors.length ≤ 50) := by
  intro os
  induction os with
  | nil => intro acc h; simpa using h
  | cons o os ih =>
    intro acc h
    exact ih _ (stepOutcome_errors_le acc o h)

theorem countSuccessOutcomes_append (a b : List RowOutcome) :
    countSuccessOutcomes (a ++ b) = countSuccessOutcomes a + countSuccessOutcomes b := by
  simp [countSuccessOutcomes, List.countP_append]

theorem processChunks_chunksOf5
    (c : Nat → MeetingCreate → Except String Meeting) (md : MapperData)
    (ex : List String) :
    ∀ (l : List NAWSRow) (i : Nat),
      processChunks c md ex i (chunksOf5 l) = processAll c md ex i l := by
  intro l
  induction l using chunksOf5.induct with
  | case1 => intro i; simp [chunksOf5, processChunks, processAll]
  | case2 a => intro i; simp [chunksOf5, processChunks, processAll]
  | case3 a b => intro i; simp [chunksOf5, processChunks, processAll]
  | case4 a b c2 => intro i; simp [chunksOf5, processChunks, processAll]
  | case5 a b c2 d => intro i; simp [chunksOf5, processChunks, processAll]
  | case6 a b c2 d e rest ih =>
    intro i
    simp only [chunksOf5, processChunks, processAll, ih]
    simp [processAll]

theorem runBatches_ok
    (c : Nat → MeetingCreate → Except String Meeting) (md : MapperData)
    (ex : List String) (ab : Nat → Bool) :
    ∀ (bs : List (List NAWSRow)) (i : Nat) (acc res : BatchResult),
      runBatches c md ex ab i acc bs = .ok res →
      res.successfulCount = acc.successfulCount + countSuccessOutcomes (processChunks c md ex i bs)
      ∧ (acc.successful.length ≤ 10 → res.successful.length ≤ 10)
      ∧ (acc.errors.length ≤ 50 → res.errors.length ≤ 50) := by
  intro bs
  induction bs with
  | nil =>
    intro i acc res h
    simp only [runBatches] at h
    cases h
    simp [processChunks, countSuccessOutcomes]
  | cons b bs ih =>
    intro i acc res h
    simp only [runBatches] at h
    by_cases hab : ab i
    · simp [hab] at h
    · simp only [hab, if_false, Bool.false_eq_true] at h
      obtain ⟨h1, h2, h3⟩ := ih (i + 5) _ res h
      refine ⟨?_, ?_, ?_⟩
      · rw [h1, foldl_stepOutcome_count]
        simp only [processChunks, countSuccessOutcomes_append]
        omega
      · intro hs
        exact h2 (foldl_stepOutcome_successful_le _ _ hs)
      · intro he
        exact h3 (foldl_stepOutcome_errors_le _ _ he)

/-! ## Lemmas about strings, the validator, and the orchestration -/

theorem jsUpper_eq_empty_iff (s : String) : jsUpper s = "" ↔ s = "" := by
  constructor
  · intro h
    have hd : (jsUpper s).data = ("" : String).data := by rw [h]
    simp only [jsUpper] at hd
    rcases s with ⟨data⟩
    simp only [List.map_eq_nil_iff] at hd
    simp [hd]
  · intro h; rw [h]; rfl

theorem addUniqueS_mem (l : List String) (x s : String)
    (h : s ∈ addUniqueS l x) : s ∈ l ∨ s = x := by
  unfold addUniqueS at h
  split at h
  · exact Or.inl h
  · rcases List.mem_append.mp h with h1 | h1
    · exact Or.inl h1
    · simp at h1; exact Or.inr h1

theorem getExisting_fold_ne_empty :
    ∀ (ms : List Meeting) (acc : List String),
      (∀ s ∈ acc, s ≠ "") →
      ∀ s ∈ ms.foldl (fun acc m =>
          if m.worldId != "" && jsTrim m.worldId != "" then
            addUniqueS acc (jsUpper (jsTrim m.worldId))
          else acc) acc, s ≠ "" := by
  intro ms
  induction ms with
  | nil => intro acc h s hs; exact h s hs
  | cons m ms ih =>
    intro acc h s hs
    simp only [List.foldl_cons] at hs
    refine ih _ ?_ s hs
    intro t ht
    split at ht
    · rcases addUniqueS_mem _ _ _ ht with h1 | h1
      · exact h t h1
      · subst h1
        rename_i hcond
        have h2 : jsTrim m.worldId ≠ "" := by
          rcases Bool.and_eq_true_iff.mp hcond with ⟨_, hb⟩
          exact bne_iff_ne.mp hb
        intro hcontra
        exact h2 ((jsUpper_eq_empty_iff _).mp hcontra)
    · exact h t ht

theorem processDataRow_validRows_le (headers : List String) (i : Nat)
    (st : VState) (row : List String) :
    (processDataRow headers i st row).validRows ≤ st.validRows + 1 := by
  simp only [processDataRow]
  (repeat' split) <;> simp

theorem processRows_validRows_le :
    ∀ (rows : List (List String)) (headers : List String) (i : Nat) (st : VState),
      (processRows headers i st rows).validRows ≤ st.validRows + rows.length := by
  intro rows
  induction rows with
  | nil => intro headers i st; simp [processRows]
  | cons row rest ih =>
    intro headers i st
    simp only [processRows, List.length_cons]
    calc (processRows headers (i + 1) (processDataRow headers i st row) rest).validRows
        ≤ (processDataRow headers i st row).validRows + rest.length := ih headers (i + 1) _
      _ ≤ st.validRows + 1 + rest.length := by
          have := processDataRow_validRows_le headers i st row
          omega
      _ = st.validRows + (rest.length + 1) := by omega

theorem importRun_ok_shape (env : ImportEnv) (opts : ImportOptions)
    (r : ImportResult) (h : importRun env opts = .ok r) :
    ∃ r3 cm, r = finishBatches r3 cm := by
  unfold importRun at h
  simp only [] at h
  repeat' split at h
  all_goals first
  | exact ⟨_, _, (Except.ok.inj h).symm⟩
  | exact absurd h (by simp)

theorem finishBatches_success_iff (r3 : ImportResult) (cm : BatchResult) :
    ((finishBatches r3 cm).success = true) ↔ 0 < (finishBatches r3 cm).successfulImports := by
  simp [finishBatches]

theorem sbLoop_no_identity (env : SBEnv) (sbs : List ServiceBody)
    (h1 : env.getServiceBodies = .ok sbs) (h2 : env.currentUserId = none) :
    ∀ (areas : List Area) (stats : ServiceBodyCreationStats),
      (∀ a ∈ areas, sbs.find? (fun sb =>
        sb.worldId != "" && jsUpper sb.worldId == jsUpper a.worldId) = none) →
      sbLoop env areas stats =
        { stats with
          totalProcessed := stats.totalProcessed + areas.length
          errors := stats.errors ++ areas.map (fun a =>
            "Failed to create service body for " ++ a.name ++ " (" ++ a.worldId ++ "): " ++
              "Failed to get current user for service body admin: No current user found - please ensure you are logged in") } := by
  intro areas
  induction areas with
  | nil =>
    intro stats _
    rcases stats with ⟨tp, sc, errs, warns, res⟩
    simp [sbLoop]
  | cons a rest ih =>
    intro stats hfind
    have hhead := hfind a (List.mem_cons_self a rest)
    have htail : ∀ b ∈ rest, sbs.find? (fun sb =>
        sb.worldId != "" && jsUpper sb.worldId == jsUpper b.worldId) = none :=
      fun b hb => hfind b (List.mem_cons_of_mem a hb)
    simp only [sbLoop, createServiceBodyWithUser, h1, h2, hhead]
    rw [ih _ htail]
    rcases stats with ⟨tp, sc, errs, warns, res⟩
    simp only [ServiceBodyCreationStats.mk.injEq, List.length_cons, List.map_cons,
      List.append_assoc, List.cons_append, List.nil_append]
    and_intros <;> first | omega | rfl | trivial

theorem sbPhase_successfulImports (env : ImportEnv) (r : ImportResult) (m : List Area) :
    (sbPhase env r m).successfulImports = r.successfulImports := by
  unfold sbPhase; simp only []; repeat' split
  all_goals rfl

theorem sbPhase_failedImports (env : ImportEnv) (r : ImportResult) (m : List Area) :
    (sbPhase env r m).failedImports = r.failedImports := by
  unfold sbPhase; simp only []; repeat' split
  all_goals rfl

theorem sbPhase_skippedImports (env : ImportEnv) (r : ImportResult) (m : List Area) :
    (sbPhase env r m).skippedImports = r.skippedImports := by
  unfold sbPhase; simp only []; repeat' split
  all_goals rfl

theorem sbPhase_createdMeetings (env : ImportEnv) (r : ImportResult) (m : List Area) :
    (sbPhase env r m).createdMeetings = r.createdMeetings := by
  unfold sbPhase; simp only []; repeat' split
  all_goals rfl

theorem sbPhase_success (env : ImportEnv) (r : ImportResult) (m : List Area) :
    (sbPhase env r m).success = r.success := by
  unfold sbPhase; simp only []; repeat' split
  all_goals rfl

theorem sbPhase_totalProcessed (env : ImportEnv) (r : ImportResult) (m : List Area) :
    (sbPhase env r m).totalProcessed = r.totalProcessed := by
  unfold sbPhase; simp only []; repeat' split
  all_goals rfl

theorem formatWarn_fields (md : MapperData) (rows : List NAWSRow) (r : ImportResult) :
    (formatWarn md rows r).successfulImports = r.successfulImports
    ∧ (formatWarn md rows r).failedImports = r.failedImports
    ∧ (formatWarn md rows r).skippedImports = r.skippedImports
    ∧ (formatWarn md rows r).createdMeetings = r.createdMeetings
    ∧ (formatWarn md rows r).success = r.success
    ∧ (formatWarn md rows r).totalProcessed = r.totalProcessed
    ∧ (formatWarn md rows r).servicesBodiesCreated = r.servicesBodiesCreated
    ∧ (formatWarn md rows r).errors = r.errors := by
  unfold formatWarn; simp only []; repeat' split
  all_goals exact ⟨rfl, rfl, rfl, rfl, rfl, rfl, rfl, rfl⟩

/-! ## Claim theorems -/

/-- C2 (counterexample): the claim says the street-address field is the only
signal of a physical location, so a row with a city, a virtual link, and no
address would have only virtual info and classify as Virtual (2); the code
counts the city as a physical location and classifies it Hybrid (3). -/
theorem c2_counterexample :
    determineVenueType rowCityVirtual = 3 ∧ venueTypeAddressOnly rowCityVirtual = 2 := by
  decide

/-- C2 (amended): venue classification counts a non-blank address OR a
non-blank city as a physical location.  A row with a city but no address
and no virtual info is still In-Person; physical signal plus virtual info
is Hybrid; virtual info with neither address nor city is Virtual; no
virtual info is always In-Person. -/
theorem c2_venue_amended (nr : NAWSRow) :
    (jsTrim nr.city ≠ "" → jsTrim nr.address = "" → jsTrim nr.virtualmeetinglink = "" →
      jsTrim nr.phonemeetingnumber = "" → determineVenueType nr = 1)
    ∧ ((jsTrim nr.address ≠ "" ∨ jsTrim nr.city ≠ "") →
        (jsTrim nr.virtualmeetinglink ≠ "" ∨ jsTrim nr.phonemeetingnumber ≠ "") →
        determineVenueType nr = 3)
    ∧ (jsTrim nr.address = "" → jsTrim nr.city = "" →
        (jsTrim nr.virtualmeetinglink ≠ "" ∨ jsTrim nr.phonemeetingnumber ≠ "") →
        determineVenueType nr = 2)
    ∧ (jsTrim nr.virtualmeetinglink = "" → jsTrim nr.phonemeetingnumber = "" →
        determineVenueType nr = 1) := by
  unfold determineVenueType
  refine ⟨?_, ?_, ?_, ?_⟩
  · intro h1 h2 h3 h4
    simp [h2, h3, h4]
  · intro h1 h2
    rcases h1 with h1 | h1 <;> rcases h2 with h2 | h2 <;>
      simp [bne_iff_ne.mpr h1, bne_iff_ne.mpr h2]
  · intro h1 h2 h3
    rcases h3 with h3 | h3 <;> simp [h1, h2, bne_iff_ne.mpr h3]
  · intro h1 h2
    simp [h1, h2]

/-- C2 (witness): the amended theorem applied to a city-only row and to the
city-plus-virtual-link row. -/
theorem c2_venue_amended_witness :
    determineVenueType { city := "Springfield" } = 1
    ∧ determineVenueType rowCityVirtual = 3 := by
  refine ⟨(c2_venue_amended { city := "Springfield" }).1 (by decide) rfl rfl rfl, ?_⟩
  exact (c2_venue_amended rowCityVirtual).2.1 (Or.inr (by decide)) (Or.inl (by decide))

/-- C3: whenever createMeetingsInBatches completes, the returned
successfulCount equals the exact number of successful per-row outcomes of
the filtered input (even beyond the caps), while the stored meeting list
never exceeds 10 entries and the stored error list never exceeds 50. -/
theorem c3_exact_counts_capped_details
    (create : Nat → MeetingCreate → Except String Meeting) (md : MapperData)
    (ex : List String) (ab : Nat → Bool) (rows : List NAWSRow) (res : BatchResult)
    (h : createMeetingsInBatches create md ex ab rows = .ok res) :
    res.successfulCount =
      countSuccessOutcomes (processAll create md ex 0 (rows.filter isSubmittableRow))
    ∧ res.successful.length ≤ 10 ∧ res.errors.length ≤ 50 := by
  unfold createMeetingsInBatches at h
  obtain ⟨h1, h2, h3⟩ := runBatches_ok create md ex ab _ 0 {} res h
  rw [processChunks_chunksOf5] at h1
  exact ⟨by simpa using h1, h2 (by simp), h3 (by simp)⟩

/-- C3 (witness): twelve successful rows yield an exact success counter of
12 while the stored list is capped; the theorem is applied to the
completed fixture run. -/
theorem c3_exact_counts_capped_details_witness :
    resTwelve.successfulCount =
      countSuccessOutcomes (processAll createOK mdFix [] 0 (rows12.filter isSubmittableRow))
    ∧ resTwelve.successful.length ≤ 10 ∧ resTwelve.errors.length ≤ 50 :=
  c3_exact_counts_capped_details createOK mdFix [] (fun _ => false) rows12 resTwelve (by rfl)

/-- C4 (counterexample): the claim says any value whose hour is outside
[0,23] encodes to the fixed default, but formatTimeForBMLT performs no
range validation: the 4-digit value 9930 (hour 99) is formatted as-is. -/
theorem c4_counterexample :
    formatTimeForBMLT "9930" = "99:30" ∧ formatTimeForBMLT "9930" ≠ "12:00" := by
  decide

/-- C4 (amended): formatTimeForBMLT maps a bare 3-or-4 digit numeral to
zero-padded HH:MM and a two-part colon numeral to zero-padded HH:MM, and
returns the fixed default 12:00 exactly when the stripped value has
neither shape; it performs no hour/minute range validation (out-of-range
values are formatted as-is; the range check lives only in isValidTime,
which rejects them). -/
theorem c4_time_amended :
    (formatTimeForBMLT "930" = "09:30" ∧ formatTimeForBMLT "1930" = "19:30"
      ∧ formatTimeForBMLT "19:30" = "19:30" ∧ formatTimeForBMLT "" = "12:00"
      ∧ formatTimeForBMLT "invalid" = "12:00" ∧ formatTimeForBMLT "9930" = "99:30"
      ∧ formatTimeForBMLT "23:75" = "23:75"
      ∧ isValidTime "9930" = false ∧ isValidTime "23:75" = false)
    ∧ (∀ s : String, (stripTimeChars s).length ≠ 3 → (stripTimeChars s).length ≠ 4 →
        (splitColon (stripTimeChars s)).length ≠ 2 → formatTimeForBMLT s = "12:00") := by
  constructor
  · decide
  · intro s h3 h4 h2
    unfold formatTimeForBMLT
    simp only []
    have hb : ((stripTimeChars s).length == 3 || (stripTimeChars s).length == 4) = false := by
      simp [h3, h4]
    rw [hb]
    simp only [Bool.false_eq_true, if_false]
    by_cases hc : strContains (stripTimeChars s) ':'
    · simp only [hc, if_true]
      rcases hsp : splitColon (stripTimeChars s) with _ | ⟨a, _ | ⟨b, _ | ⟨c, l⟩⟩⟩
      · rfl
      · rfl
      · exact absurd (by rw [hsp]; rfl) h2
      · rfl
    · simp [hc]

/-- C4 (witness): the amended fallback applied to a three-part colon value. -/
theorem c4_time_amended_witness : formatTimeForBMLT "7:30:00" = "12:00" :=
  c4_time_amended.2 "7:30:00" (by decide) (by decide) (by decide)

/-- C5 (counterexample): with no resolvable current identity, the
reconciliation loop does not abort: both entries are processed and each
failure is recorded as a per-entry error string. -/
theorem c5_counterexample :
    (createMissingServiceBodies sbEnvNoUser areasTwo).totalProcessed = 2
    ∧ (createMissingServiceBodies sbEnvNoUser areasTwo).errors.length = 2
    ∧ (createMissingServiceBodies sbEnvNoUser areasTwo).errors =
        ["Failed to create service body for Area One (AR1): Failed to get current user for service body admin: No current user found - please ensure you are logged in",
         "Failed to create service body for Region Two (RG2): Failed to get current user for service body admin: No current user found - please ensure you are logged in"] := by
  refine ⟨by decide, by decide, by decide⟩

/-- C5 (amended): when the current identity cannot be resolved (no token)
and none of the entries matches an existing remote service body, the
identity failure is caught by the per-entry handler of
createMissingServiceBodies: every entry is still processed, each one
records one error string, nothing is created, and the step returns
normally instead of aborting. -/
theorem c5_identity_failure_amended (env : SBEnv) (sbs : List ServiceBody)
    (areas : List Area)
    (h1 : env.getServiceBodies = .ok sbs) (h2 : env.currentUserId = none)
    (h3 : ∀ a ∈ areas, sbs.find? (fun sb =>
      sb.worldId != "" && jsUpper sb.worldId == jsUpper a.worldId) = none) :
    createMissingServiceBodies env areas =
      { totalProcessed := areas.length, servicesBodiesCreated := 0,
        warnings := [], results := [],
        errors := areas.map (fun a =>
          "Failed to create service body for " ++ a.name ++ " (" ++ a.worldId ++ "): " ++
            "Failed to get current user for service body admin: No current user found - please ensure you are logged in") } := by
  unfold createMissingServiceBodies
  rw [sbLoop_no_identity env sbs h1 h2 areas {} h3]
  simp

/-- C5 (witness): the amended theorem applied to the no-identity fixture. -/
theorem c5_identity_failure_amended_witness :
    createMissingServiceBodies sbEnvNoUser areasTwo =
      { totalProcessed := areasTwo.length, servicesBodiesCreated := 0,
        warnings := [], results := [],
        errors := areasTwo.map (fun a =>
          "Failed to create service body for " ++ a.name ++ " (" ++ a.worldId ++ "): " ++
            "Failed to get current user for service body admin: No current user found - please ensure you are logged in") } :=
  c5_identity_failure_amended sbEnvNoUser [] areasTwo rfl rfl (by simp)

/-- C6: a row whose trimmed committee code matches the pre-fetched existing
set (case-insensitively) yields the skip outcome, independently of the
create call (no create is issued); the aggregation counts a skip outcome
as skipped, never as failed, and never as a success; and a failed fetch of
the existing meetings degrades to the empty duplicate set while the run
proceeds exactly as it would with an empty remote meeting list. -/
theorem c6_duplicate_skip_and_graceful_degrade :
    (∀ (create createB : Nat → MeetingCreate → Except String Meeting)
        (md : MapperData) (ex : List String) (idx : Nat) (row : NAWSRow),
        jsTrim row.committee ≠ "" →
        ex.contains (jsUpper (jsTrim row.committee)) = true →
        processRow create md ex idx row =
          { success := false, skipped := true, meeting := none,
            errors := ["Row " ++ toString idx ++ ": Meeting with worldId \x27" ++
              jsTrim row.committee ++ "\x27 already exists - skipped"] }
        ∧ processRow create md ex idx row = processRow createB md ex idx row)
    ∧ (∀ (acc : BatchResult) (es : List String),
        (stepOutcome acc { success := false, skipped := true, meeting := none, errors := es }).skipped
            = acc.skipped + 1
        ∧ (stepOutcome acc { success := false, skipped := true, meeting := none, errors := es }).failed
            = acc.failed
        ∧ (stepOutcome acc { success := false, skipped := true, meeting := none, errors := es }).successfulCount
            = acc.successfulCount)
    ∧ (∀ e : String, getExistingMeetingWorldIds (.error e) = [])
    ∧ (∀ (env : ImportEnv) (opts : ImportOptions) (e : String),
        env.getMeetings = .error e →
        importFromFile env opts = importFromFile { env with getMeetings := .ok [] } opts) := by
  refine ⟨?_, ?_, ?_, ?_⟩
  · intro create createB md ex idx row h1 h2
    have hb : (jsTrim row.committee != "") = true := bne_iff_ne.mpr h1
    constructor
    · unfold processRow
      simp only [hb, h2, Bool.and_self, if_true]
    · unfold processRow
      simp only [hb, h2, Bool.and_self, if_true]
  · intro acc es
    refine ⟨?_, ?_, ?_⟩ <;>
      (simp only [stepOutcome]; (repeat' split) <;> simp_all)
  · intro e; rfl
  · intro env opts e h
    unfold importFromFile importRun
    rw [h]
    rfl

/-- C6 (witness): the theorem applied to the duplicate fixture row against
the fixture set, and to the fixture run with a failing meeting fetch. -/
theorem c6_duplicate_skip_and_graceful_degrade_witness :
    processRow createOK mdFix ["TST001"] 2 rowDup =
      { success := false, skipped := true, meeting := none,
        errors := ["Row 2: Meeting with worldId \x27TST001\x27 already exists - skipped"] }
    ∧ importFromFile { envW with getMeetings := .error "down" } {} =
        importFromFile { { envW with getMeetings := .error "down" } with getMeetings := .ok [] } {} := by
  constructor
  · exact (c6_duplicate_skip_and_graceful_degrade.1 createOK createOK mdFix
      ["TST001"] 2 rowDup (by decide) (by decide)).1
  · exact c6_duplicate_skip_and_graceful_degrade.2.2.2
      { envW with getMeetings := .error "down" } {} "down" rfl

/-- C7: evaluation of the code at the failing input.  The input list holds a
required-field-missing row (data-row index 0) followed by a duplicate row
(data-row index 1, source row 3 under original-input numbering); the code
filters first and tags the duplicate row's outcome with Row 2, computed
from its index in the filtered valid-rows list, not from its position in
the original input as the claim states. -/
theorem c7_row_number_from_filtered_index :
    createMeetingsInBatches createOK mdFix ["TST001"] (fun _ => false) [rowBad, rowDup] =
      .ok { successful := [], successfulCount := 0, failed := 0, skipped := 1,
            errors := ["Row 2: Meeting with worldId \x27TST001\x27 already exists - skipped"] } := by
  rfl

/-- C8: for every run of importFromFile that completes normally, the
returned result is the completed one and its success flag is true exactly
when at least one meeting was successfully created. -/
theorem c8_success_iff_any_created (env : ImportEnv) (opts : ImportOptions)
    (r : ImportResult) (h : importRun env opts = .ok r) :
    importFromFile env opts = r ∧ ((r.success = true) ↔ 0 < r.successfulImports) := by
  constructor
  · unfold importFromFile; rw [h]
  · obtain ⟨r3, cm, rfl⟩ := importRun_ok_shape env opts r h
    exact finishBatches_success_iff r3 cm

/-- C8 (witness): the theorem applied to the completed fixture run. -/
theorem c8_success_iff_any_created_witness :
    importFromFile envW {} = rW ∧ ((rW.success = true) ↔ 0 < rW.successfulImports) :=
  c8_success_iff_any_created envW {} rW (by rfl)

/-- C9: a validated grid reports totalRows as the line count minus the
header row and validRows never exceeds it; a fully empty data row leaves
the row-loop state untouched (no output record, no warning, not counted),
so the loop simply advances to the next raw row. -/
theorem c9_empty_rows_skipped_totals_exact :
    (∀ (rawData : List (List String)) (ps : ProcessedSpreadsheet),
        validateAndProcess rawData = some ps →
        ps.totalRows + 1 = rawData.length ∧ ps.validRows ≤ ps.totalRows)
    ∧ (∀ (headers : List String) (i : Nat) (st : VState),
        processDataRow headers i st [] = st)
    ∧ (∀ (headers : List String) (i : Nat) (st : VState) (rest : List (List String)),
        processRows headers i st ([] :: rest) = processRows headers (i + 1) st rest) := by
  refine ⟨?_, ?_, ?_⟩
  · intro rawData ps h
    cases rawData with
    | nil => simp [validateAndProcess] at h
    | cons header dataRows =>
      simp only [validateAndProcess] at h
      split at h
      · cases Option.some.inj h
        simp
      · cases Option.some.inj h
        constructor
        · simp
        · have := processRows_validRows_le dataRows
            (header.map (fun h => jsTrim (jsLower h))) 1 {}
          simpa using this
  · intro headers i st
    simp [processDataRow]
  · intro headers i st rest
    simp [processRows, processDataRow]

/-- C9 (witness): the totals part applied to the grid fixture. -/
theorem c9_empty_rows_skipped_totals_exact_witness :
    psGridFix.totalRows + 1 = gridFix.length ∧ psGridFix.validRows ≤ psGridFix.totalRows :=
  c9_empty_rows_skipped_totals_exact.1 gridFix psGridFix (by rfl)

/-- C10: a row with a blank or whitespace-only committee code is never
classified as a duplicate: its outcome is independent of the existing-code
set and is never a skip; and the duplicate set built from the remote
meetings never contains a blank code. -/
theorem c10_blank_code_never_suppressed :
    (∀ (create : Nat → MeetingCreate → Except String Meeting) (md : MapperData)
        (ex exB : List String) (idx : Nat) (row : NAWSRow),
        jsTrim row.committee = "" →
        processRow create md ex idx row = processRow create md exB idx row
        ∧ (processRow create md ex idx row).skipped = false)
    ∧ (∀ (fetch : Except String (List Meeting)) (s : String),
        s ∈ getExistingMeetingWorldIds fetch → s ≠ "") := by
  constructor
  · intro create md ex exB idx row h
    constructor
    · unfold processRow
      simp only [h]
      rfl
    · unfold processRow
      simp only [h, bne_self_eq_false, Bool.false_and, Bool.false_eq_true, if_false]
      rcases hm : (mapNAWSRowToMeeting md row idx).meeting with _ | m
      · simp [hm]
      · rcases hc : create idx m with e | cm <;> simp [hm, hc]
  · intro fetch s hs
    cases fetch with
    | error e => simp [getExistingMeetingWorldIds] at hs
    | ok ms =>
      exact getExisting_fold_ne_empty ms [] (by simp) s hs

/-- C10 (witness): the theorem applied to the blank-committee fixture row
and to a concrete fetched meeting list. -/
theorem c10_blank_code_never_suppressed_witness :
    (processRow createOK mdFix ["TST001"] 2 rowOK = processRow createOK mdFix [] 2 rowOK
      ∧ (processRow createOK mdFix ["TST001"] 2 rowOK).skipped = false)
    ∧ "X" ≠ "" := by
  constructor
  · exact c10_blank_code_never_suppressed.1 createOK mdFix ["TST001"] [] 2 rowOK rfl
  · exact c10_blank_code_never_suppressed.2 (.ok [{ id := 1, worldId := "X" }]) "X" (by decide)

/-- C1 (counterexample): with six submittable rows and an abort signal that
becomes set between the first and the second batch, the interrupted run
had already accumulated five successful creations (the aggregate folded
over the first batch), yet the returned ImportResult reports
successfulImports = 0 — the per-row partial results are discarded because
the batch routine throws — and the cancellation sentinel is pushed into
the same errors list that carries data errors. -/
theorem c1_counterexample :
    ((processAll createOK mdFix [] 0 ((psSix.rows.filter isSubmittableRow).take 5)).foldl
        stepOutcome {}).successfulCount = 5
    ∧ (importFromFile envC1 {}).successfulImports = 0
    ∧ (importFromFile envC1 {}).errors = ["Import cancelled by user"] := by
  refine ⟨by decide, by decide, by decide⟩

/-- C1 (amended): when the abort signal is observed during the batch phase,
importFromFile returns (rather than throws) a result in which the
distinguished sentinel string is appended to the same errors list used for
data errors, the warnings, errors, totalProcessed and
servicesBodiesCreated accumulated before the abort are preserved, but the
per-row success, failure and skip counts of the interrupted batch phase
are returned as zero (discarded), the created-meetings sample is empty,
and the overall success flag is false. -/
theorem c1_cancellation_amended (env : ImportEnv) (opts : ImportOptions)
    (ps : ProcessedSpreadsheet) (sf : List ServiceBody × List Format)
    (missingAreas : List Area) (usbs : List ServiceBody)
    (h1 : env.processed = .ok ps) (h2 : env.abortedAt 0 = false)
    (h3 : ps.errors = []) (h4 : env.serverFetch = .ok sf)
    (h5 : env.abortedAt 1 = false)
    (h6 : findMissingServiceBodies env.sbEnv (extractUniqueAreas ps.rows) = .ok missingAreas)
    (h7 : env.updatedServiceBodies = .ok usbs) (h8 : env.abortedAt 2 = false)
    (h9 : createMeetingsInBatches env.createMeeting (mapperPhase opts usbs sf.2)
      (getExistingMeetingWorldIds env.getMeetings)
      (fun i => env.abortedAt (3 + i / 5)) ps.rows = .error ()) :
    importFromFile env opts =
      { formatWarn (mapperPhase opts usbs sf.2) ps.rows
          (sbPhase env { warnings := ps.warnings, totalProcessed := ps.validRows } missingAreas) with
        errors := (formatWarn (mapperPhase opts usbs sf.2) ps.rows
          (sbPhase env { warnings := ps.warnings, totalProcessed := ps.validRows } missingAreas)).errors
            ++ ["Import cancelled by user"] }
    ∧ (importFromFile env opts).successfulImports = 0
    ∧ (importFromFile env opts).failedImports = 0
    ∧ (importFromFile env opts).skippedImports = 0
    ∧ (importFromFile env opts).createdMeetings = []
    ∧ (importFromFile env opts).success = false
    ∧ (importFromFile env opts).totalProcessed = ps.validRows
    ∧ (importFromFile env opts).servicesBodiesCreated =
        (sbPhase env { warnings := ps.warnings, totalProcessed := ps.validRows }
          missingAreas).servicesBodiesCreated := by
  have hrun : importRun env opts =
      .error (.abortErr (formatWarn (mapperPhase opts usbs sf.2) ps.rows
        (sbPhase env { warnings := ps.warnings, totalProcessed := ps.validRows } missingAreas))) := by
    unfold importRun
    rw [h1]
    simp only [h2, h3, h4, h5, h6, h7, h8, h9, List.length_nil, gt_iff_lt,
      Nat.lt_irrefl, if_false, Bool.false_eq_true]
  have hmain : importFromFile env opts =
      { formatWarn (mapperPhase opts usbs sf.2) ps.rows
          (sbPhase env { warnings := ps.warnings, totalProcessed := ps.validRows } missingAreas) with
        errors := (formatWarn (mapperPhase opts usbs sf.2) ps.rows
          (sbPhase env { warnings := ps.warnings, totalProcessed := ps.validRows } missingAreas)).errors
            ++ ["Import cancelled by user"] } := by
    unfold importFromFile
    rw [hrun]
  obtain ⟨f1, f2, f3, f4, f5, f6, f7, f8⟩ := formatWarn_fields (mapperPhase opts usbs sf.2) ps.rows
    (sbPhase env { warnings := ps.warnings, totalProcessed := ps.validRows } missingAreas)
  refine ⟨hmain, ?_, ?_, ?_, ?_, ?_, ?_, ?_⟩ <;> rw [hmain]
  · show (formatWarn _ _ _).successfulImports = 0
    rw [f1, sbPhase_successfulImports]
  · show (formatWarn _ _ _).failedImports = 0
    rw [f2, sbPhase_failedImports]
  · show (formatWarn _ _ _).skippedImports = 0
    rw [f3, sbPhase_skippedImports]
  · show (formatWarn _ _ _).createdMeetings = []
    rw [f4, sbPhase_createdMeetings]
  · show (formatWarn _ _ _).success = false
    rw [f5, sbPhase_success]
  · show (formatWarn _ _ _).totalProcessed = ps.validRows
    rw [f6, sbPhase_totalProcessed]
  · show (formatWarn _ _ _).servicesBodiesCreated =
      (sbPhase env { warnings := ps.warnings, totalProcessed := ps.validRows }
        missingAreas).servicesBodiesCreated
    rw [f7]

/-- C1 (witness): the amended theorem applied to the fixture run aborted
between its two batches. -/
theorem c1_cancellation_amended_witness :
    (importFromFile envC1 {}).successfulImports = 0
    ∧ (importFromFile envC1 {}).success = false
    ∧ (importFromFile envC1 {}).totalProcessed = psSix.validRows
    ∧ (importFromFile envC1 {}).servicesBodiesCreated =
        (sbPhase envC1 { warnings := psSix.warnings, totalProcessed := psSix.validRows }
          []).servicesBodiesCreated := by
  have h := c1_cancellation_amended envC1 {} psSix ([sbFix], []) [] [sbFix]
    rfl rfl rfl rfl rfl rfl rfl rfl (by rfl)
  exact ⟨h.2.1, h.2.2.2.2.2.1, h.2.2.2.2.2.2.1, h.2.2.2.2.2.2.2⟩
